import Mathlib

/-!
Shallow embedding of `bottle_couchdb.py` (the `CouchDBPlugin` class).

The plugin holds an immutable configuration (`server_name`, `db_name`,
`keyword`).  Its `apply` method inspects the formal parameter names of a
route's original callback; if the effective keyword is absent the callback
is returned unchanged, otherwise a wrapper is returned that, on every
invocation, connects to the CouchDB server, resolves (creating if absent)
the named database, injects the handle as a keyword argument and delegates
to the original callback.

The external CouchDB library is modelled by an explicit world state
(`World`): the set of existing `(server, database)` pairs plus fault sets
describing which resource-layer calls raise.  Every resource-layer call is
recorded in a trace of `ResourceOp` events, so that claims about "exactly
one connect / membership test / create-or-fetch per invocation" and about
error propagation are directly expressible.
-/

set_option autoImplicit false

namespace BottleCouchDB

/-- A resource-layer event, recorded once per call to the CouchDB client.
`callback_call` marks delegation to the original route callback. -/
inductive ResourceOp where
  | connect (server_name : String)
  | exists_check (server_name : String) (db_name : String)
  | create (server_name : String) (db_name : String)
  | fetch (server_name : String) (db_name : String)
  | callback_call
  deriving DecidableEq

/-- A CouchDB server handle, as produced by `couchdb.Server(server_name)`. -/
structure Server where
  name : String
  deriving DecidableEq

/-- A CouchDB database handle, as produced by `server.create(db_name)` or
`server[db_name]`. -/
structure Database where
  server_name : String
  db_name : String
  deriving DecidableEq

/-- Errors raised by the external CouchDB client.  The plugin never catches
any of these. -/
inductive CouchError where
  | connectionError (server_name : String)
  | existsError (server_name : String) (db_name : String)
  | createError (server_name : String) (db_name : String)
  | resourceNotFound (server_name : String) (db_name : String)
  deriving DecidableEq

/-- The state of the external CouchDB world: which databases exist on which
servers, and which resource-layer calls fail (raising the corresponding
`CouchError`). -/
structure World where
  dbs : List (String × String)
  connectFailures : List String
  existsFailures : List (String × String)
  createFailures : List (String × String)
  fetchFailures : List (String × String)
  deriving DecidableEq

/-- Model of `couchdb.Server(server_name)`: one connect event; raises a
connection error exactly when the world says connecting to that server
fails, otherwise yields a server handle.  The world is unchanged. -/
def couchdbServer (w : World) (server_name : String) :
    Except CouchError Server × List ResourceOp :=
  (if server_name ∈ w.connectFailures then
     Except.error (CouchError.connectionError server_name)
   else
     Except.ok ⟨server_name⟩,
   [ResourceOp.connect server_name])

/-- The plugin's immutable configuration record, set by `__init__`. -/
structure CouchDBPlugin where
  server_name : String
  db_name : String
  keyword : String
  deriving DecidableEq

/-- Model of `CouchDBPlugin.__init__(self, db_name, server_name, keyword)`
(source lines 54-57): it stores the three fields and performs no
validation whatsoever — construction is total. -/
def CouchDBPlugin.init (db_name : String) (server_name : String)
    (keyword : String) : CouchDBPlugin :=
  { server_name := server_name, db_name := db_name, keyword := keyword }

/-- Model of `CouchDBPlugin.get_server(self, server_name=None)` (source
lines 59-62): default the server name from the plugin configuration, then
call `couchdb.Server`. -/
def CouchDBPlugin.get_server (p : CouchDBPlugin) (w : World)
    (server_name : Option String) :
    Except CouchError Server × List ResourceOp :=
  let server_name := server_name.getD p.server_name
  couchdbServer w server_name

/-- The body of `get_database` after the server is resolved (source lines
70-75): `if db_name not in server: db = server.create(db_name) else:
db = server[db_name]; return db`.  The membership test, the create and the
subscript fetch are external calls that may each raise. -/
def dbResolve (w : World) (srv : Server) (db_name : String) :
    Except CouchError Database × World × List ResourceOp :=
  if (srv.name, db_name) ∈ w.existsFailures then
    (Except.error (CouchError.existsError srv.name db_name), w,
     [ResourceOp.exists_check srv.name db_name])
  else if (srv.name, db_name) ∉ w.dbs then
    -- db = server.create(db_name)
    if (srv.name, db_name) ∈ w.createFailures then
      (Except.error (CouchError.createError srv.name db_name), w,
       [ResourceOp.exists_check srv.name db_name,
        ResourceOp.create srv.name db_name])
    else
      (Except.ok ⟨srv.name, db_name⟩,
       { w with dbs := (srv.name, db_name) :: w.dbs },
       [ResourceOp.exists_check srv.name db_name,
        ResourceOp.create srv.name db_name])
  else
    -- db = server[db_name]
    if (srv.name, db_name) ∈ w.fetchFailures then
      (Except.error (CouchError.resourceNotFound srv.name db_name), w,
       [ResourceOp.exists_check srv.name db_name,
        ResourceOp.fetch srv.name db_name])
    else
      (Except.ok ⟨srv.name, db_name⟩, w,
       [ResourceOp.exists_check srv.name db_name,
        ResourceOp.fetch srv.name db_name])

/-- Model of `CouchDBPlugin.get_database(self, db_name=None, server=None,
server_name=None)` (source lines 64-75): default the database name, resolve
the server (connecting only when none is supplied), then create-or-fetch. -/
def CouchDBPlugin.get_database (p : CouchDBPlugin) (w : World)
    (db_name : Option String) (server : Option Server)
    (server_name : Option String) :
    Except CouchError Database × World × List ResourceOp :=
  let db_name := db_name.getD p.db_name
  match server with
  | some srv => dbResolve w srv db_name
  | none =>
    match p.get_server w server_name with
    | (Except.error e, t) => (Except.error e, w, t)
    | (Except.ok srv, t) =>
      match dbResolve w srv db_name with
      | (r, w2, t2) => (r, w2, t ++ t2)

/-- A plugin installed on the application: either another `CouchDBPlugin`
instance or a plugin of a different kind (the `isinstance` test in `setup`
distinguishes exactly these two cases). -/
inductive AppPlugin where
  | couch (p : CouchDBPlugin)
  | other (name : String)
  deriving DecidableEq

/-- The host application, exposing its list of already-installed plugins. -/
structure App where
  plugins : List AppPlugin
  deriving DecidableEq

/-- The message of the `PluginError` raised by `setup` on a keyword
conflict (source lines 81-82). -/
def couchdbConflictMessage : String :=
  "Found another couchdb plugin with conflicting settings (non-unique keyword)."

/-- The bottle `PluginError` exception. -/
inductive PluginError where
  | conflict (msg : String)
  deriving DecidableEq

/-- The `for other in app.plugins` loop of `setup` (source lines 78-82):
plugins of other kinds are skipped (`continue`); a `CouchDBPlugin` with an
equal keyword raises `PluginError`. -/
def setupLoop (p : CouchDBPlugin) : List AppPlugin → Except PluginError Unit
  | [] => Except.ok ()
  | AppPlugin.other _ :: rest => setupLoop p rest
  | AppPlugin.couch q :: rest =>
    if q.keyword = p.keyword then
      Except.error (PluginError.conflict couchdbConflictMessage)
    else
      setupLoop p rest

/-- Model of `CouchDBPlugin.setup(self, app)` (source lines 77-82). -/
def CouchDBPlugin.setup (p : CouchDBPlugin) (app : App) :
    Except PluginError Unit :=
  setupLoop p app.plugins

/-- Model of `CouchDBPlugin.close(self)` (source lines 111-112): `pass`. -/
def CouchDBPlugin.close (_p : CouchDBPlugin) : Unit := ()

/-- A runtime value passed to or returned from a route callback. -/
inductive Value where
  | str (s : String)
  | num (n : Nat)
  | db (d : Database)
  deriving DecidableEq

/-- The keyword arguments of a call, as an association list with Python
dict semantics (first occurrence of a key is its binding). -/
abbrev KwArgs := List (String × Value)

/-- Python dict assignment `kwargs[k] = v`: replace the binding of `k` in
place if present, otherwise append it. -/
def kwSet (kwargs : KwArgs) (k : String) (v : Value) : KwArgs :=
  match kwargs with
  | [] => [(k, v)]
  | (k2, v2) :: rest =>
    if k2 = k then (k2, v) :: rest else (k2, v2) :: kwSet rest k v

/-- Python dict lookup `kwargs[k]`, returning `none` when absent. -/
def kwGet (kwargs : KwArgs) (k : String) : Option Value :=
  match kwargs with
  | [] => none
  | (k2, v) :: rest => if k2 = k then some v else kwGet rest k

/-- A route callback: a pure function of the positional and keyword
arguments. -/
structure Callback where
  run : List Value → KwArgs → Value

/-- The per-route configuration mapping `context.config['couchdb']`, whose
keys `server_name`, `db_name` and `keyword` each independently override the
plugin defaults. -/
structure RouteConfig where
  server_name : Option String
  db_name : Option String
  keyword : Option String
  deriving DecidableEq

/-- The result of `inspect.getargspec(callback)`: the named formal
parameters (`[0]`, i.e. `.args`), plus whether the callback has a `*args`
catch-all (`varargs`) and a `**kwargs` catch-all (`varkw`).  `apply` reads
only `.args`. -/
structure ArgSpec where
  args : List String
  varargs : Bool
  varkw : Bool
  deriving DecidableEq

/-- The route context passed to `apply`: the optional `couchdb` entry of
the route configuration, and the argspec of `context.callback` (the
original, pre-wrap callback whose signature `apply` inspects). -/
structure Context where
  config_couchdb : Option RouteConfig
  callback_spec : ArgSpec
  deriving DecidableEq

/-- `context.config.get('couchdb') or {}` (source line 85): a missing (or
falsy) entry behaves as the empty mapping. -/
def routeConf (ctx : Context) : RouteConfig :=
  ctx.config_couchdb.getD ⟨none, none, none⟩

/-- `conf.get('server_name', self.server_name)` (source line 86). -/
def effective_server_name (p : CouchDBPlugin) (ctx : Context) : String :=
  (routeConf ctx).server_name.getD p.server_name

/-- `conf.get('db_name', self.db_name)` (source line 87). -/
def effective_db_name (p : CouchDBPlugin) (ctx : Context) : String :=
  (routeConf ctx).db_name.getD p.db_name

/-- `conf.get('keyword', self.keyword)` (source line 88). -/
def effective_keyword (p : CouchDBPlugin) (ctx : Context) : String :=
  (routeConf ctx).keyword.getD p.keyword

/-- The result of `apply`: either the original callback returned unchanged
(`return callback`, source line 94), or the `wrapper` closure (source lines
96-108), which captures the plugin, the original callback and the three
effective configuration values. -/
inductive BoundCallback where
  | unwrapped (callback : Callback)
  | wrapped (plugin : CouchDBPlugin) (callback : Callback)
      (server_name : String) (db_name : String) (keyword : String)

/-- Model of `CouchDBPlugin.apply(self, callback, context)` (source lines
84-108): compute the effective per-route configuration, inspect the named
formal parameters of the original callback, and either return the callback
unchanged or build the wrapper. -/
def CouchDBPlugin.apply (p : CouchDBPlugin) (callback : Callback)
    (context : Context) : BoundCallback :=
  let keyword := effective_keyword p context
  -- args = inspect.getargspec(context.callback)[0]
  let args := context.callback_spec.args
  if keyword ∉ args then
    BoundCallback.unwrapped callback
  else
    BoundCallback.wrapped p callback (effective_server_name p context)
      (effective_db_name p context) keyword

/-- Invocation of a bound callback.  The unwrapped case is the original
callback, performing no resource-layer call.  The wrapped case is the body
of `wrapper(*args, **kwargs)` (source lines 96-105): connect via
`self.get_server(server_name)`, resolve via
`self.get_database(db_name=db_name, server=couch)`, set
`kwargs[keyword] = db` and delegate to the original callback. -/
def invoke (bc : BoundCallback) (w : World) (args : List Value)
    (kwargs : KwArgs) : Except CouchError Value × World × List ResourceOp :=
  match bc with
  | BoundCallback.unwrapped cb =>
    (Except.ok (cb.run args kwargs), w, [ResourceOp.callback_call])
  | BoundCallback.wrapped p cb server_name db_name keyword =>
    match p.get_server w (some server_name) with
    | (Except.error e, t) => (Except.error e, w, t)
    | (Except.ok couch, t) =>
      match p.get_database w (some db_name) (some couch) none with
      | (Except.error e, w2, t2) => (Except.error e, w2, t ++ t2)
      | (Except.ok db, w2, t2) =>
        (Except.ok (cb.run args (kwSet kwargs keyword (Value.db db))), w2,
         t ++ t2 ++ [ResourceOp.callback_call])

/-- One call to a method of the plugin (or to a wrapper it produced), with
its arguments: the operations whose effect on the plugin's configuration
record claim C9 is about. -/
inductive PluginOp where
  | getServerOp (w : World) (server_name : Option String)
  | getDatabaseOp (w : World) (db_name : Option String)
      (server : Option Server) (server_name : Option String)
  | setupOp (app : App)
  | applyOp (cb : Callback) (ctx : Context)
  | closeOp
  | invokeOp (bc : BoundCallback) (w : World) (args : List Value)
      (kwargs : KwArgs)

/-- The effect of each operation on the plugin's own configuration record,
translated from the method bodies (source lines 59-112): the only
assignments to `self.server_name`, `self.db_name`, `self.keyword` in the
class are the ones in `__init__`; `get_server`, `get_database`, `setup`,
`apply`, `close` and the `wrapper` closure only read them, so every case
returns the record unchanged. -/
def pluginAfter (p : CouchDBPlugin) : PluginOp → CouchDBPlugin
  | PluginOp.getServerOp _ _ => p
  | PluginOp.getDatabaseOp _ _ _ _ => p
  | PluginOp.setupOp _ => p
  | PluginOp.applyOp _ _ => p
  | PluginOp.closeOp => p
  | PluginOp.invokeOp _ _ _ _ => p

/-! Concrete sample values, used by the witness theorems. -/

/-- A sample plugin, as in the spec's scenario: resource `my_db`, server
`http://localhost:5984`, keyword `db`. -/
def plugin0 : CouchDBPlugin :=
  CouchDBPlugin.init "my_db" "http://localhost:5984" "db"

/-- A sample route callback returning a value built from its arguments. -/
def cb0 : Callback :=
  ⟨fun args kwargs => Value.num (args.length + kwargs.length)⟩

/-- Argspec of a handler `show(item, db)`. -/
def spec0 : ArgSpec := ⟨["item", "db"], false, false⟩

/-- Argspec of a handler `show(item)`. -/
def spec1 : ArgSpec := ⟨["item"], false, false⟩

/-- Argspec of a handler `show(item, **kwargs)`: the keyword could only be
accepted through the `**kwargs` catch-all. -/
def spec2 : ArgSpec := ⟨["item"], false, true⟩

/-- A route context with no per-route `couchdb` configuration, handler
`show(item, db)`. -/
def ctx0 : Context := ⟨none, spec0⟩

/-- A route context with no per-route `couchdb` configuration, handler
`show(item)`. -/
def ctx1 : Context := ⟨none, spec1⟩

/-- A route context with no per-route `couchdb` configuration, handler
`show(item, **kwargs)`. -/
def ctx2 : Context := ⟨none, spec2⟩

/-- A world in which no database exists and no resource call fails. -/
def w0 : World := ⟨[], [], [], [], []⟩

/-- A world in which `my_db` already exists on the sample server and no
resource call fails. -/
def w1 : World := ⟨[("http://localhost:5984", "my_db")], [], [], [], []⟩

/-- A world in which connecting to the sample server fails. -/
def wc : World := ⟨[], ["http://localhost:5984"], [], [], []⟩

/-- A handle for the sample server. -/
def srv0 : Server := ⟨"http://localhost:5984"⟩

/-- A per-route configuration overriding only the keyword. -/
def conf0 : RouteConfig := ⟨none, none, some "database"⟩

/-- Argspec of a handler `show(item, database)`. -/
def spec3 : ArgSpec := ⟨["item", "database"], false, false⟩

/-- An application that already has one CouchDB plugin installed under the
keyword `db`, plus a plugin of a different kind. -/
def app0 : App :=
  ⟨[AppPlugin.couch (CouchDBPlugin.init "other_db" "" "db"),
    AppPlugin.other "sqlite"]⟩

/-! Helper lemmas shared by the claim theorems. -/

theorem apply_of_not_mem (p : CouchDBPlugin) (cb : Callback) (ctx : Context)
    (h : effective_keyword p ctx ∉ ctx.callback_spec.args) :
    p.apply cb ctx = BoundCallback.unwrapped cb := by
  unfold CouchDBPlugin.apply
  simp [h]

theorem apply_of_mem (p : CouchDBPlugin) (cb : Callback) (ctx : Context)
    (h : effective_keyword p ctx ∈ ctx.callback_spec.args) :
    p.apply cb ctx =
      BoundCallback.wrapped p cb (effective_server_name p ctx)
        (effective_db_name p ctx) (effective_keyword p ctx) := by
  unfold CouchDBPlugin.apply
  simp [h]

theorem invoke_unwrapped (cb : Callback) (w : World) (args : List Value)
    (kwargs : KwArgs) :
    invoke (BoundCallback.unwrapped cb) w args kwargs =
      (Except.ok (cb.run args kwargs), w, [ResourceOp.callback_call]) := rfl

theorem invoke_wrapped_connectFail (p : CouchDBPlugin) (cb : Callback)
    (sn dn kw : String) (w : World) (args : List Value) (kwargs : KwArgs)
    (h1 : sn ∈ w.connectFailures) :
    invoke (BoundCallback.wrapped p cb sn dn kw) w args kwargs =
      (Except.error (CouchError.connectionError sn), w,
       [ResourceOp.connect sn]) := by
  simp [invoke, CouchDBPlugin.get_server, couchdbServer, h1]

theorem invoke_wrapped_existsFail (p : CouchDBPlugin) (cb : Callback)
    (sn dn kw : String) (w : World) (args : List Value) (kwargs : KwArgs)
    (h1 : sn ∉ w.connectFailures) (h2 : (sn, dn) ∈ w.existsFailures) :
    invoke (BoundCallback.wrapped p cb sn dn kw) w args kwargs =
      (Except.error (CouchError.existsError sn dn), w,
       [ResourceOp.connect sn, ResourceOp.exists_check sn dn]) := by
  simp [invoke, CouchDBPlugin.get_server, couchdbServer,
    CouchDBPlugin.get_database, dbResolve, h1, h2]

theorem invoke_wrapped_createFail (p : CouchDBPlugin) (cb : Callback)
    (sn dn kw : String) (w : World) (args : List Value) (kwargs : KwArgs)
    (h1 : sn ∉ w.connectFailures) (h2 : (sn, dn) ∉ w.existsFailures)
    (h3 : (sn, dn) ∉ w.dbs) (h4 : (sn, dn) ∈ w.createFailures) :
    invoke (BoundCallback.wrapped p cb sn dn kw) w args kwargs =
      (Except.error (CouchError.createError sn dn), w,
       [ResourceOp.connect sn, ResourceOp.exists_check sn dn,
        ResourceOp.create sn dn]) := by
  simp [invoke, CouchDBPlugin.get_server, couchdbServer,
    CouchDBPlugin.get_database, dbResolve, h1, h2, h3, h4]

theorem invoke_wrapped_fetchFail (p : CouchDBPlugin) (cb : Callback)
    (sn dn kw : String) (w : World) (args : List Value) (kwargs : KwArgs)
    (h1 : sn ∉ w.connectFailures) (h2 : (sn, dn) ∉ w.existsFailures)
    (h3 : (sn, dn) ∈ w.dbs) (h4 : (sn, dn) ∈ w.fetchFailures) :
    invoke (BoundCallback.wrapped p cb sn dn kw) w args kwargs =
      (Except.error (CouchError.resourceNotFound sn dn), w,
       [ResourceOp.connect sn, ResourceOp.exists_check sn dn,
        ResourceOp.fetch sn dn]) := by
  simp [invoke, CouchDBPlugin.get_server, couchdbServer,
    CouchDBPlugin.get_database, dbResolve, h1, h2, h3, h4]

theorem invoke_wrapped_ok_create (p : CouchDBPlugin) (cb : Callback)
    (sn dn kw : String) (w : World) (args : List Value) (kwargs : KwArgs)
    (h1 : sn ∉ w.connectFailures) (h2 : (sn, dn) ∉ w.existsFailures)
    (h3 : (sn, dn) ∉ w.dbs) (h4 : (sn, dn) ∉ w.createFailures) :
    invoke (BoundCallback.wrapped p cb sn dn kw) w args kwargs =
      (Except.ok (cb.run args (kwSet kwargs kw (Value.db ⟨sn, dn⟩))),
       { w with dbs := (sn, dn) :: w.dbs },
       [ResourceOp.connect sn, ResourceOp.exists_check sn dn,
        ResourceOp.create sn dn, ResourceOp.callback_call]) := by
  simp [invoke, CouchDBPlugin.get_server, couchdbServer,
    CouchDBPlugin.get_database, dbResolve, h1, h2, h3, h4]

theorem invoke_wrapped_ok_fetch (p : CouchDBPlugin) (cb : Callback)
    (sn dn kw : String) (w : World) (args : List Value) (kwargs : KwArgs)
    (h1 : sn ∉ w.connectFailures) (h2 : (sn, dn) ∉ w.existsFailures)
    (h3 : (sn, dn) ∈ w.dbs) (h4 : (sn, dn) ∉ w.fetchFailures) :
    invoke (BoundCallback.wrapped p cb sn dn kw) w args kwargs =
      (Except.ok (cb.run args (kwSet kwargs kw (Value.db ⟨sn, dn⟩))), w,
       [ResourceOp.connect sn, ResourceOp.exists_check sn dn,
        ResourceOp.fetch sn dn, ResourceOp.callback_call]) := by
  simp [invoke, CouchDBPlugin.get_server, couchdbServer,
    CouchDBPlugin.get_database, dbResolve, h1, h2, h3, h4]

theorem kwGet_kwSet_self (kwargs : KwArgs) (k : String) (v : Value) :
    kwGet (kwSet kwargs k v) k = some v := by
  induction kwargs with
  | nil => simp [kwSet, kwGet]
  | cons hd rest ih =>
    obtain ⟨k2, v2⟩ := hd
    by_cases h : k2 = k
    · simp [kwSet, kwGet, h]
    · simp [kwSet, kwGet, h, ih]

theorem kwGet_kwSet_ne (kwargs : KwArgs) (k k2 : String) (v : Value)
    (h : k2 ≠ k) :
    kwGet (kwSet kwargs k v) k2 = kwGet kwargs k2 := by
  induction kwargs with
  | nil => simp [kwSet, kwGet, Ne.symm h]
  | cons hd rest ih =>
    obtain ⟨k3, v3⟩ := hd
    by_cases h3 : k3 = k
    · subst h3
      simp [kwSet, kwGet, Ne.symm h]
    · simp only [kwSet, if_neg h3]
      by_cases h4 : k3 = k2
      · simp [kwGet, h4]
      · simp [kwGet, h4, ih]

theorem setupLoop_error_iff (p : CouchDBPlugin) (l : List AppPlugin) :
    setupLoop p l =
        Except.error (PluginError.conflict couchdbConflictMessage) ↔
      ∃ q, AppPlugin.couch q ∈ l ∧ q.keyword = p.keyword := by
  induction l with
  | nil => simp [setupLoop]
  | cons hd rest ih =>
    cases hd with
    | other n =>
      rw [show setupLoop p (AppPlugin.other n :: rest) = setupLoop p rest
        from rfl, ih]
      constructor
      · rintro ⟨q, hq, hkw⟩
        exact ⟨q, List.mem_cons_of_mem _ hq, hkw⟩
      · rintro ⟨q, hq, hkw⟩
        rcases List.mem_cons.mp hq with h | h
        · cases h
        · exact ⟨q, h, hkw⟩
    | couch q =>
      by_cases h : q.keyword = p.keyword
      · simp only [setupLoop, if_pos h]
        constructor
        · intro _
          exact ⟨q, List.mem_cons_self _ _, h⟩
        · intro _
          trivial
      · simp only [setupLoop, if_neg h]
        rw [ih]
        constructor
        · rintro ⟨q2, hq, hkw⟩
          exact ⟨q2, List.mem_cons_of_mem _ hq, hkw⟩
        · rintro ⟨q2, hq, hkw⟩
          rcases List.mem_cons.mp hq with h2 | h2
          · cases h2
            exact absurd hkw h
          · exact ⟨q2, h2, hkw⟩

theorem setupLoop_ok (p : CouchDBPlugin) (l : List AppPlugin)
    (h : ¬ ∃ q, AppPlugin.couch q ∈ l ∧ q.keyword = p.keyword) :
    setupLoop p l = Except.ok () := by
  induction l with
  | nil => rfl
  | cons hd rest ih =>
    cases hd with
    | other n =>
      exact ih fun ⟨q, hq, hk⟩ => h ⟨q, List.mem_cons_of_mem _ hq, hk⟩
    | couch q =>
      have hne : ¬ q.keyword = p.keyword :=
        fun hk => h ⟨q, List.mem_cons_self _ _, hk⟩
      simp only [setupLoop, if_neg hne]
      exact ih fun ⟨q2, hq, hk⟩ => h ⟨q2, List.mem_cons_of_mem _ hq, hk⟩

/-! Claim theorems. -/

/-- C2: for every callback whose formal parameter list does not contain the
effective injection keyword, `apply` returns the callback argument itself
(the `unwrapped` constructor holds the very argument, so the binding is
referentially the original), and invoking the bound callback performs no
resource-server operation at all: the trace holds only the delegation
marker — no connect, membership test, create or fetch — the world is
unchanged, and the result is the original callback's result on the
unmodified arguments. -/
theorem C2_no_keyword_no_wrap (p : CouchDBPlugin) (cb : Callback)
    (ctx : Context)
    (h : effective_keyword p ctx ∉ ctx.callback_spec.args) :
    p.apply cb ctx = BoundCallback.unwrapped cb ∧
    ∀ w args kwargs, invoke (p.apply cb ctx) w args kwargs =
      (Except.ok (cb.run args kwargs), w, [ResourceOp.callback_call]) := by
  refine ⟨apply_of_not_mem p cb ctx h, ?_⟩
  intro w args kwargs
  rw [apply_of_not_mem p cb ctx h]
  exact rfl

/-- Witness for C2: the handler `show(item)` under the default keyword
`db`. -/
theorem C2_no_keyword_no_wrap_witness :
    (effective_keyword plugin0 ctx1 ∉ ctx1.callback_spec.args) ∧
    (plugin0.apply cb0 ctx1 = BoundCallback.unwrapped cb0 ∧
     ∀ w args kwargs, invoke (plugin0.apply cb0 ctx1) w args kwargs =
       (Except.ok (cb0.run args kwargs), w, [ResourceOp.callback_call])) :=
  ⟨by decide, C2_no_keyword_no_wrap plugin0 cb0 ctx1 (by decide)⟩

/-- C10: the wrapping decision reads only the named formal parameters of
the original callback (`inspect.getargspec(context.callback)[0]`): a
callback that could accept the injection keyword only through a `**kwargs`
catch-all (`varkw = true`) and does not name the keyword among its formal
parameters is returned unwrapped, and its invocations perform no resource
operation and receive no injected argument. -/
theorem C10_varkw_ignored (p : CouchDBPlugin) (cb : Callback)
    (ctx : Context) (_hvk : ctx.callback_spec.varkw = true)
    (h : effective_keyword p ctx ∉ ctx.callback_spec.args) :
    p.apply cb ctx = BoundCallback.unwrapped cb ∧
    ∀ w args kwargs, invoke (p.apply cb ctx) w args kwargs =
      (Except.ok (cb.run args kwargs), w, [ResourceOp.callback_call]) := by
  refine ⟨apply_of_not_mem p cb ctx h, ?_⟩
  intro w args kwargs
  rw [apply_of_not_mem p cb ctx h]
  exact rfl

/-- Witness for C10: the handler `show(item, **kwargs)` under the default
keyword `db`. -/
theorem C10_varkw_ignored_witness :
    (ctx2.callback_spec.varkw = true) ∧
    (effective_keyword plugin0 ctx2 ∉ ctx2.callback_spec.args) ∧
    (plugin0.apply cb0 ctx2 = BoundCallback.unwrapped cb0 ∧
     ∀ w args kwargs, invoke (plugin0.apply cb0 ctx2) w args kwargs =
       (Except.ok (cb0.run args kwargs), w, [ResourceOp.callback_call])) :=
  ⟨by decide, by decide,
   C10_varkw_ignored plugin0 cb0 ctx2 (by decide) (by decide)⟩

/-- C3: `setup` raises the `PluginError` if and only if some
already-installed plugin of the same kind (`CouchDBPlugin`) has a keyword
equal to this plugin's keyword; otherwise — different keywords, or plugins
of other kinds only — it returns successfully. -/
theorem C3_setup_conflict_iff (p : CouchDBPlugin) (app : App) :
    (p.setup app =
        Except.error (PluginError.conflict couchdbConflictMessage) ↔
      ∃ q, AppPlugin.couch q ∈ app.plugins ∧ q.keyword = p.keyword) ∧
    ((¬ ∃ q, AppPlugin.couch q ∈ app.plugins ∧ q.keyword = p.keyword) →
      p.setup app = Except.ok ()) :=
  ⟨setupLoop_error_iff p app.plugins, fun h => setupLoop_ok p app.plugins h⟩

/-- Witness for C3: installing a second plugin with keyword `db` on an
application already holding one with keyword `db` raises; the same
application accepts a plugin with keyword `mail_db`. -/
theorem C3_setup_conflict_iff_witness :
    ((CouchDBPlugin.init "my_db" "" "db").setup app0 =
        Except.error (PluginError.conflict couchdbConflictMessage) ↔
      ∃ q, AppPlugin.couch q ∈ app0.plugins ∧
        q.keyword = (CouchDBPlugin.init "my_db" "" "db").keyword) ∧
    ((¬ ∃ q, AppPlugin.couch q ∈ app0.plugins ∧
        q.keyword = (CouchDBPlugin.init "my_db" "" "db").keyword) →
      (CouchDBPlugin.init "my_db" "" "db").setup app0 = Except.ok ()) :=
  C3_setup_conflict_iff (CouchDBPlugin.init "my_db" "" "db") app0

/-- C8 counterexample: the claim says the constructor rejects an empty or
whitespace-only keyword rather than storing it.  In the code `__init__`
performs no validation: construction with keyword `""` (and with `" "`)
succeeds and the keyword is stored verbatim. -/
theorem C8_counterexample :
    (CouchDBPlugin.init "my_db" "http://localhost:5984" "").keyword = ""
    ∧ (CouchDBPlugin.init "my_db" "http://localhost:5984" " ").keyword
        = " " :=
  ⟨rfl, rfl⟩

/-- C8 (amended): the constructor performs no validation at all: for all
arguments — the keyword included, even empty or whitespace-only —
construction succeeds (it is a total function) and stores the three
configuration fields unchanged. -/
theorem C8_init_no_validation (db_name server_name keyword : String) :
    (CouchDBPlugin.init db_name server_name keyword).server_name
        = server_name ∧
    (CouchDBPlugin.init db_name server_name keyword).db_name = db_name ∧
    (CouchDBPlugin.init db_name server_name keyword).keyword = keyword :=
  ⟨rfl, rfl, rfl⟩

/-- C9: the plugin's configuration record is never mutated after
construction: over any sequence of plugin operations (`get_server`,
`get_database`, `setup`, `apply`, `close`, invocation of a produced
wrapper), the record — and each of its three fields — is exactly the one
stored at construction. -/
theorem C9_config_immutable (p : CouchDBPlugin) (ops : List PluginOp) :
    List.foldl pluginAfter p ops = p ∧
    (List.foldl pluginAfter p ops).server_name = p.server_name ∧
    (List.foldl pluginAfter p ops).db_name = p.db_name ∧
    (List.foldl pluginAfter p ops).keyword = p.keyword := by
  have h : List.foldl pluginAfter p ops = p := by
    induction ops with
    | nil => rfl
    | cons op rest ih =>
      rw [List.foldl_cons,
        show pluginAfter p op = p from by cases op <;> rfl]
      exact ih
  exact ⟨h, by rw [h], by rw [h], by rw [h]⟩

/-- C1: for every callback whose formal parameter list contains the
effective injection keyword, each invocation of the bound callback performs
exactly one resource-resolution sequence — one connect to the effective
server, then one membership test of the effective database name, then
exactly one of create (if absent) or subscript fetch (if present) — and
passes the resolved handle to the original callback under the effective
keyword, overwriting any caller-supplied value for that key (last
conjunct). -/
theorem C1_wrapped_injection (p : CouchDBPlugin) (cb : Callback)
    (ctx : Context) (w : World) (args : List Value) (kwargs : KwArgs)
    (hkw : effective_keyword p ctx ∈ ctx.callback_spec.args)
    (hc : effective_server_name p ctx ∉ w.connectFailures)
    (he : (effective_server_name p ctx, effective_db_name p ctx)
        ∉ w.existsFailures)
    (hcr : (effective_server_name p ctx, effective_db_name p ctx)
        ∉ w.createFailures)
    (hf : (effective_server_name p ctx, effective_db_name p ctx)
        ∉ w.fetchFailures) :
    invoke (p.apply cb ctx) w args kwargs =
      (Except.ok (cb.run args (kwSet kwargs (effective_keyword p ctx)
          (Value.db ⟨effective_server_name p ctx,
                     effective_db_name p ctx⟩))),
       if (effective_server_name p ctx, effective_db_name p ctx) ∈ w.dbs
       then
         (w,
          [ResourceOp.connect (effective_server_name p ctx),
           ResourceOp.exists_check (effective_server_name p ctx)
             (effective_db_name p ctx),
           ResourceOp.fetch (effective_server_name p ctx)
             (effective_db_name p ctx),
           ResourceOp.callback_call])
       else
         ({ w with dbs := (effective_server_name p ctx,
              effective_db_name p ctx) :: w.dbs },
          [ResourceOp.connect (effective_server_name p ctx),
           ResourceOp.exists_check (effective_server_name p ctx)
             (effective_db_name p ctx),
           ResourceOp.create (effective_server_name p ctx)
             (effective_db_name p ctx),
           ResourceOp.callback_call])) ∧
    kwGet (kwSet kwargs (effective_keyword p ctx)
        (Value.db ⟨effective_server_name p ctx, effective_db_name p ctx⟩))
      (effective_keyword p ctx) =
      some (Value.db ⟨effective_server_name p ctx,
                      effective_db_name p ctx⟩) := by
  refine ⟨?_, kwGet_kwSet_self kwargs _ _⟩
  rw [apply_of_mem p cb ctx hkw]
  by_cases hdb :
      (effective_server_name p ctx, effective_db_name p ctx) ∈ w.dbs
  · rw [if_pos hdb]
    exact invoke_wrapped_ok_fetch p cb _ _ _ w args kwargs hc he hdb hf
  · rw [if_neg hdb]
    exact invoke_wrapped_ok_create p cb _ _ _ w args kwargs hc he hdb hcr

/-- Witness for C1: the handler `show(item, db)`, the sample plugin, a
world where `my_db` already exists, a caller-supplied `db` argument that
gets overwritten. -/
theorem C1_wrapped_injection_witness :
    (effective_keyword plugin0 ctx0 ∈ ctx0.callback_spec.args) ∧
    (effective_server_name plugin0 ctx0 ∉ w1.connectFailures) ∧
    ((effective_server_name plugin0 ctx0, effective_db_name plugin0 ctx0)
        ∉ w1.existsFailures) ∧
    ((effective_server_name plugin0 ctx0, effective_db_name plugin0 ctx0)
        ∉ w1.createFailures) ∧
    ((effective_server_name plugin0 ctx0, effective_db_name plugin0 ctx0)
        ∉ w1.fetchFailures) ∧
    ((invoke (plugin0.apply cb0 ctx0) w1 [Value.str "42"]
        [("db", Value.num 0)] =
      (Except.ok (cb0.run [Value.str "42"]
          (kwSet [("db", Value.num 0)] (effective_keyword plugin0 ctx0)
            (Value.db ⟨effective_server_name plugin0 ctx0,
                       effective_db_name plugin0 ctx0⟩))),
       if (effective_server_name plugin0 ctx0,
           effective_db_name plugin0 ctx0) ∈ w1.dbs
       then
         (w1,
          [ResourceOp.connect (effective_server_name plugin0 ctx0),
           ResourceOp.exists_check (effective_server_name plugin0 ctx0)
             (effective_db_name plugin0 ctx0),
           ResourceOp.fetch (effective_server_name plugin0 ctx0)
             (effective_db_name plugin0 ctx0),
           ResourceOp.callback_call])
       else
         ({ w1 with dbs := (effective_server_name plugin0 ctx0,
              effective_db_name plugin0 ctx0) :: w1.dbs },
          [ResourceOp.connect (effective_server_name plugin0 ctx0),
           ResourceOp.exists_check (effective_server_name plugin0 ctx0)
             (effective_db_name plugin0 ctx0),
           ResourceOp.create (effective_server_name plugin0 ctx0)
             (effective_db_name plugin0 ctx0),
           ResourceOp.callback_call]))) ∧
      kwGet (kwSet [("db", Value.num 0)] (effective_keyword plugin0 ctx0)
          (Value.db ⟨effective_server_name plugin0 ctx0,
                     effective_db_name plugin0 ctx0⟩))
        (effective_keyword plugin0 ctx0) =
        some (Value.db ⟨effective_server_name plugin0 ctx0,
                        effective_db_name plugin0 ctx0⟩)) :=
  ⟨by decide, by decide, by decide, by decide, by decide,
   C1_wrapped_injection plugin0 cb0 ctx0 w1 [Value.str "42"]
     [("db", Value.num 0)]
     (by decide) (by decide) (by decide) (by decide) (by decide)⟩

/-- C4: on each wrapped invocation, the database name's membership on the
server is tested; when absent the wrapper creates it (the world gains the
database and the trace shows the create call), when present it fetches it
by subscript (world unchanged, trace shows the fetch); in both cases the
handle names that server and database, and the wrapper injects exactly the
handle `get_database` returned (third conjunct, via `Except.map`). -/
theorem C4_create_or_fetch (p : CouchDBPlugin) (cb : Callback)
    (srv : Server) (dn kw : String) (w : World) (args : List Value)
    (kwargs : KwArgs)
    (he : (srv.name, dn) ∉ w.existsFailures)
    (hcr : (srv.name, dn) ∉ w.createFailures)
    (hf : (srv.name, dn) ∉ w.fetchFailures) :
    ((srv.name, dn) ∉ w.dbs →
      p.get_database w (some dn) (some srv) none =
        (Except.ok ⟨srv.name, dn⟩,
         { w with dbs := (srv.name, dn) :: w.dbs },
         [ResourceOp.exists_check srv.name dn,
          ResourceOp.create srv.name dn])) ∧
    ((srv.name, dn) ∈ w.dbs →
      p.get_database w (some dn) (some srv) none =
        (Except.ok ⟨srv.name, dn⟩, w,
         [ResourceOp.exists_check srv.name dn,
          ResourceOp.fetch srv.name dn])) ∧
    (srv.name ∉ w.connectFailures →
      invoke (BoundCallback.wrapped p cb srv.name dn kw) w args kwargs =
        (Except.map
           (fun db => cb.run args (kwSet kwargs kw (Value.db db)))
           (p.get_database w (some dn) (some srv) none).1,
         (p.get_database w (some dn) (some srv) none).2.1,
         ResourceOp.connect srv.name ::
           ((p.get_database w (some dn) (some srv) none).2.2 ++
            [ResourceOp.callback_call]))) := by
  have h1 : (srv.name, dn) ∉ w.dbs →
      p.get_database w (some dn) (some srv) none =
        (Except.ok ⟨srv.name, dn⟩,
         { w with dbs := (srv.name, dn) :: w.dbs },
         [ResourceOp.exists_check srv.name dn,
          ResourceOp.create srv.name dn]) := by
    intro hdb
    simp [CouchDBPlugin.get_database, dbResolve, he, hcr, hdb]
  have h2 : (srv.name, dn) ∈ w.dbs →
      p.get_database w (some dn) (some srv) none =
        (Except.ok ⟨srv.name, dn⟩, w,
         [ResourceOp.exists_check srv.name dn,
          ResourceOp.fetch srv.name dn]) := by
    intro hdb
    simp [CouchDBPlugin.get_database, dbResolve, he, hf, hdb]
  refine ⟨h1, h2, ?_⟩
  intro hcf
  by_cases hdb : (srv.name, dn) ∈ w.dbs
  · rw [invoke_wrapped_ok_fetch p cb srv.name dn kw w args kwargs
      hcf he hdb hf, h2 hdb]
    simp [Except.map]
  · rw [invoke_wrapped_ok_create p cb srv.name dn kw w args kwargs
      hcf he hdb hcr, h1 hdb]
    simp [Except.map]

/-- Witness for C4: the sample server and database name in a world where
the database does not yet exist. -/
theorem C4_create_or_fetch_witness :
    ((srv0.name, "my_db") ∉ w0.existsFailures) ∧
    ((srv0.name, "my_db") ∉ w0.createFailures) ∧
    ((srv0.name, "my_db") ∉ w0.fetchFailures) ∧
    ((((srv0.name, "my_db") ∉ w0.dbs →
      plugin0.get_database w0 (some "my_db") (some srv0) none =
        (Except.ok ⟨srv0.name, "my_db"⟩,
         { w0 with dbs := (srv0.name, "my_db") :: w0.dbs },
         [ResourceOp.exists_check srv0.name "my_db",
          ResourceOp.create srv0.name "my_db"])) ∧
    ((srv0.name, "my_db") ∈ w0.dbs →
      plugin0.get_database w0 (some "my_db") (some srv0) none =
        (Except.ok ⟨srv0.name, "my_db"⟩, w0,
         [ResourceOp.exists_check srv0.name "my_db",
          ResourceOp.fetch srv0.name "my_db"])) ∧
    (srv0.name ∉ w0.connectFailures →
      invoke (BoundCallback.wrapped plugin0 cb0 srv0.name "my_db" "db")
          w0 [Value.str "42"] [] =
        (Except.map
           (fun db => cb0.run [Value.str "42"]
             (kwSet [] "db" (Value.db db)))
           (plugin0.get_database w0 (some "my_db") (some srv0) none).1,
         (plugin0.get_database w0 (some "my_db") (some srv0) none).2.1,
         ResourceOp.connect srv0.name ::
           ((plugin0.get_database w0 (some "my_db") (some srv0) none).2.2
            ++ [ResourceOp.callback_call]))))) :=
  ⟨by decide, by decide, by decide,
   C4_create_or_fetch plugin0 cb0 srv0 "my_db" "db" w0 [Value.str "42"] []
     (by decide) (by decide) (by decide)⟩

/-- C5: for a route whose configuration supplies a `couchdb` mapping, each
of `server_name`, `db_name` and `keyword` is taken from the mapping when
present and from the plugin defaults otherwise, independently per field
(first two conjuncts); overriding only `keyword` leaves the other two at
the plugin defaults, the overridden keyword governs the signature test
(third conjunct), and it also names the injected argument while the
resolution still targets the plugin-default server and database (fourth
conjunct). -/
theorem C5_per_route_overrides (p : CouchDBPlugin) (cb : Callback)
    (conf : RouteConfig) (spec : ArgSpec) :
    (conf.keyword.getD p.keyword ∈ spec.args →
      CouchDBPlugin.apply p cb ⟨some conf, spec⟩ =
        BoundCallback.wrapped p cb (conf.server_name.getD p.server_name)
          (conf.db_name.getD p.db_name) (conf.keyword.getD p.keyword)) ∧
    (conf.keyword.getD p.keyword ∉ spec.args →
      CouchDBPlugin.apply p cb ⟨some conf, spec⟩ =
        BoundCallback.unwrapped cb) ∧
    (∀ k, CouchDBPlugin.apply p cb ⟨some ⟨none, none, some k⟩, spec⟩ =
      if k ∈ spec.args then
        BoundCallback.wrapped p cb p.server_name p.db_name k
      else BoundCallback.unwrapped cb) ∧
    (∀ k (w : World) (args : List Value) (kwargs : KwArgs),
      k ∈ spec.args →
      p.server_name ∉ w.connectFailures →
      (p.server_name, p.db_name) ∉ w.existsFailures →
      (p.server_name, p.db_name) ∉ w.dbs →
      (p.server_name, p.db_name) ∉ w.createFailures →
      invoke (CouchDBPlugin.apply p cb ⟨some ⟨none, none, some k⟩, spec⟩)
          w args kwargs =
        (Except.ok (cb.run args
            (kwSet kwargs k (Value.db ⟨p.server_name, p.db_name⟩))),
         { w with dbs := (p.server_name, p.db_name) :: w.dbs },
         [ResourceOp.connect p.server_name,
          ResourceOp.exists_check p.server_name p.db_name,
          ResourceOp.create p.server_name p.db_name,
          ResourceOp.callback_call])) := by
  refine ⟨?_, ?_, ?_, ?_⟩
  · intro h
    exact apply_of_mem p cb ⟨some conf, spec⟩ h
  · intro h
    exact apply_of_not_mem p cb ⟨some conf, spec⟩ h
  · intro k
    by_cases hk : k ∈ spec.args
    · rw [if_pos hk]
      exact apply_of_mem p cb ⟨some ⟨none, none, some k⟩, spec⟩ hk
    · rw [if_neg hk]
      exact apply_of_not_mem p cb ⟨some ⟨none, none, some k⟩, spec⟩ hk
  · intro k w args kwargs hk hc he hdb hcr
    rw [apply_of_mem p cb ⟨some ⟨none, none, some k⟩, spec⟩ hk]
    exact invoke_wrapped_ok_create p cb _ _ _ w args kwargs hc he hdb hcr

/-- Witness for C5: a route configuration overriding only the keyword to
`database`, a handler `show(item, database)`. -/
theorem C5_per_route_overrides_witness :
    ((conf0.keyword.getD plugin0.keyword ∈ spec3.args →
      CouchDBPlugin.apply plugin0 cb0 ⟨some conf0, spec3⟩ =
        BoundCallback.wrapped plugin0 cb0
          (conf0.server_name.getD plugin0.server_name)
          (conf0.db_name.getD plugin0.db_name)
          (conf0.keyword.getD plugin0.keyword)) ∧
    (conf0.keyword.getD plugin0.keyword ∉ spec3.args →
      CouchDBPlugin.apply plugin0 cb0 ⟨some conf0, spec3⟩ =
        BoundCallback.unwrapped cb0) ∧
    (∀ k, CouchDBPlugin.apply plugin0 cb0
        ⟨some ⟨none, none, some k⟩, spec3⟩ =
      if k ∈ spec3.args then
        BoundCallback.wrapped plugin0 cb0 plugin0.server_name
          plugin0.db_name k
      else BoundCallback.unwrapped cb0) ∧
    (∀ k (w : World) (args : List Value) (kwargs : KwArgs),
      k ∈ spec3.args →
      plugin0.server_name ∉ w.connectFailures →
      (plugin0.server_name, plugin0.db_name) ∉ w.existsFailures →
      (plugin0.server_name, plugin0.db_name) ∉ w.dbs →
      (plugin0.server_name, plugin0.db_name) ∉ w.createFailures →
      invoke (CouchDBPlugin.apply plugin0 cb0
          ⟨some ⟨none, none, some k⟩, spec3⟩) w args kwargs =
        (Except.ok (cb0.run args (kwSet kwargs k
            (Value.db ⟨plugin0.server_name, plugin0.db_name⟩))),
         { w with dbs :=
            (plugin0.server_name, plugin0.db_name) :: w.dbs },
         [ResourceOp.connect plugin0.server_name,
          ResourceOp.exists_check plugin0.server_name plugin0.db_name,
          ResourceOp.create plugin0.server_name plugin0.db_name,
          ResourceOp.callback_call]))) :=
  C5_per_route_overrides plugin0 cb0 conf0 spec3

/-- C6: a wrapped invocation passes every positional argument through
unchanged (the original callback is applied to the very `args` list), every
keyword argument other than the injection keyword through unchanged (their
lookups agree), and returns the original callback's result unchanged (the
`ok` payload is exactly the callback's application). -/
theorem C6_pass_through (p : CouchDBPlugin) (cb : Callback)
    (ctx : Context) (w : World) (args : List Value) (kwargs : KwArgs)
    (hkw : effective_keyword p ctx ∈ ctx.callback_spec.args)
    (hc : effective_server_name p ctx ∉ w.connectFailures)
    (he : (effective_server_name p ctx, effective_db_name p ctx)
        ∉ w.existsFailures)
    (hcr : (effective_server_name p ctx, effective_db_name p ctx)
        ∉ w.createFailures)
    (hf : (effective_server_name p ctx, effective_db_name p ctx)
        ∉ w.fetchFailures) :
    ∃ kwargs2 w2 t,
      invoke (p.apply cb ctx) w args kwargs =
        (Except.ok (cb.run args kwargs2), w2, t) ∧
      ∀ k, k ≠ effective_keyword p ctx →
        kwGet kwargs2 k = kwGet kwargs k := by
  by_cases hdb :
      (effective_server_name p ctx, effective_db_name p ctx) ∈ w.dbs
  · refine ⟨kwSet kwargs (effective_keyword p ctx)
        (Value.db ⟨effective_server_name p ctx,
                   effective_db_name p ctx⟩), w,
      [ResourceOp.connect (effective_server_name p ctx),
       ResourceOp.exists_check (effective_server_name p ctx)
         (effective_db_name p ctx),
       ResourceOp.fetch (effective_server_name p ctx)
         (effective_db_name p ctx),
       ResourceOp.callback_call], ?_, ?_⟩
    · rw [apply_of_mem p cb ctx hkw]
      exact invoke_wrapped_ok_fetch p cb _ _ _ w args kwargs hc he hdb hf
    · intro k hk
      exact kwGet_kwSet_ne kwargs _ k _ hk
  · refine ⟨kwSet kwargs (effective_keyword p ctx)
        (Value.db ⟨effective_server_name p ctx,
                   effective_db_name p ctx⟩),
      { w with dbs := (effective_server_name p ctx,
          effective_db_name p ctx) :: w.dbs },
      [ResourceOp.connect (effective_server_name p ctx),
       ResourceOp.exists_check (effective_server_name p ctx)
         (effective_db_name p ctx),
       ResourceOp.create (effective_server_name p ctx)
         (effective_db_name p ctx),
       ResourceOp.callback_call], ?_, ?_⟩
    · rw [apply_of_mem p cb ctx hkw]
      exact invoke_wrapped_ok_create p cb _ _ _ w args kwargs hc he hdb hcr
    · intro k hk
      exact kwGet_kwSet_ne kwargs _ k _ hk

/-- Witness for C6: the handler `show(item, db)` called with a positional
argument and an unrelated keyword argument. -/
theorem C6_pass_through_witness :
    (effective_keyword plugin0 ctx0 ∈ ctx0.callback_spec.args) ∧
    (effective_server_name plugin0 ctx0 ∉ w0.connectFailures) ∧
    ((effective_server_name plugin0 ctx0, effective_db_name plugin0 ctx0)
        ∉ w0.existsFailures) ∧
    ((effective_server_name plugin0 ctx0, effective_db_name plugin0 ctx0)
        ∉ w0.createFailures) ∧
    ((effective_server_name plugin0 ctx0, effective_db_name plugin0 ctx0)
        ∉ w0.fetchFailures) ∧
    (∃ kwargs2 w2 t,
      invoke (plugin0.apply cb0 ctx0) w0 [Value.str "42"]
          [("page", Value.num 3)] =
        (Except.ok (cb0.run [Value.str "42"] kwargs2), w2, t) ∧
      ∀ k, k ≠ effective_keyword plugin0 ctx0 →
        kwGet kwargs2 k = kwGet [("page", Value.num 3)] k) :=
  ⟨by decide, by decide, by decide, by decide, by decide,
   C6_pass_through plugin0 cb0 ctx0 w0 [Value.str "42"]
     [("page", Value.num 3)]
     (by decide) (by decide) (by decide) (by decide) (by decide)⟩

/-- C7: if any resource-layer call made by the wrapper raises, the wrapper
propagates exactly that error — the invocation's result is the very error
the failing call produced, untranslated (conjuncts two to five enumerate
the four calls) — and the original callback is never invoked for that
request: no error outcome's trace contains the delegation marker (first
conjunct). -/
theorem C7_error_propagation (p : CouchDBPlugin) (cb : Callback)
    (ctx : Context) (w : World) (args : List Value) (kwargs : KwArgs)
    (hkw : effective_keyword p ctx ∈ ctx.callback_spec.args) :
    (∀ e w2 t,
      invoke (p.apply cb ctx) w args kwargs = (Except.error e, w2, t) →
        ResourceOp.callback_call ∉ t) ∧
    (effective_server_name p ctx ∈ w.connectFailures →
      invoke (p.apply cb ctx) w args kwargs =
        (Except.error
           (CouchError.connectionError (effective_server_name p ctx)),
         w, [ResourceOp.connect (effective_server_name p ctx)])) ∧
    (effective_server_name p ctx ∉ w.connectFailures →
     (effective_server_name p ctx, effective_db_name p ctx)
        ∈ w.existsFailures →
      invoke (p.apply cb ctx) w args kwargs =
        (Except.error (CouchError.existsError
            (effective_server_name p ctx) (effective_db_name p ctx)),
         w, [ResourceOp.connect (effective_server_name p ctx),
             ResourceOp.exists_check (effective_server_name p ctx)
               (effective_db_name p ctx)])) ∧
    (effective_server_name p ctx ∉ w.connectFailures →
     (effective_server_name p ctx, effective_db_name p ctx)
        ∉ w.existsFailures →
     (effective_server_name p ctx, effective_db_name p ctx) ∉ w.dbs →
     (effective_server_name p ctx, effective_db_name p ctx)
        ∈ w.createFailures →
      invoke (p.apply cb ctx) w args kwargs =
        (Except.error (CouchError.createError
            (effective_server_name p ctx) (effective_db_name p ctx)),
         w, [ResourceOp.connect (effective_server_name p ctx),
             ResourceOp.exists_check (effective_server_name p ctx)
               (effective_db_name p ctx),
             ResourceOp.create (effective_server_name p ctx)
               (effective_db_name p ctx)])) ∧
    (effective_server_name p ctx ∉ w.connectFailures →
     (effective_server_name p ctx, effective_db_name p ctx)
        ∉ w.existsFailures →
     (effective_server_name p ctx, effective_db_name p ctx) ∈ w.dbs →
     (effective_server_name p ctx, effective_db_name p ctx)
        ∈ w.fetchFailures →
      invoke (p.apply cb ctx) w args kwargs =
        (Except.error (CouchError.resourceNotFound
            (effective_server_name p ctx) (effective_db_name p ctx)),
         w, [ResourceOp.connect (effective_server_name p ctx),
             ResourceOp.exists_check (effective_server_name p ctx)
               (effective_db_name p ctx),
             ResourceOp.fetch (effective_server_name p ctx)
               (effective_db_name p ctx)])) := by
  have happ := apply_of_mem p cb ctx hkw
  refine ⟨?_, ?_, ?_, ?_, ?_⟩
  · intro e w2 t heq
    rw [happ] at heq
    by_cases h1 : effective_server_name p ctx ∈ w.connectFailures
    · rw [invoke_wrapped_connectFail p cb _ _ _ w args kwargs h1] at heq
      have ht : t = [ResourceOp.connect (effective_server_name p ctx)] := by
        have h := congrArg (fun x => x.2.2) heq
        simpa using h.symm
      subst ht
      simp
    · by_cases h2 : (effective_server_name p ctx, effective_db_name p ctx)
          ∈ w.existsFailures
      · rw [invoke_wrapped_existsFail p cb _ _ _ w args kwargs h1 h2] at heq
        have ht : t = [ResourceOp.connect (effective_server_name p ctx),
            ResourceOp.exists_check (effective_server_name p ctx)
              (effective_db_name p ctx)] := by
          have h := congrArg (fun x => x.2.2) heq
          simpa using h.symm
        subst ht
        simp
      · by_cases h3 : (effective_server_name p ctx,
            effective_db_name p ctx) ∈ w.dbs
        · by_cases h4 : (effective_server_name p ctx,
              effective_db_name p ctx) ∈ w.fetchFailures
          · rw [invoke_wrapped_fetchFail p cb _ _ _ w args kwargs
              h1 h2 h3 h4] at heq
            have ht : t =
                [ResourceOp.connect (effective_server_name p ctx),
                 ResourceOp.exists_check (effective_server_name p ctx)
                   (effective_db_name p ctx),
                 ResourceOp.fetch (effective_server_name p ctx)
                   (effective_db_name p ctx)] := by
              have h := congrArg (fun x => x.2.2) heq
              simpa using h.symm
            subst ht
            simp
          · rw [invoke_wrapped_ok_fetch p cb _ _ _ w args kwargs
              h1 h2 h3 h4] at heq
            simp at heq
        · by_cases h4 : (effective_server_name p ctx,
              effective_db_name p ctx) ∈ w.createFailures
          · rw [invoke_wrapped_createFail p cb _ _ _ w args kwargs
              h1 h2 h3 h4] at heq
            have ht : t =
                [ResourceOp.connect (effective_server_name p ctx),
                 ResourceOp.exists_check (effective_server_name p ctx)
                   (effective_db_name p ctx),
                 ResourceOp.create (effective_server_name p ctx)
                   (effective_db_name p ctx)] := by
              have h := congrArg (fun x => x.2.2) heq
              simpa using h.symm
            subst ht
            simp
          · rw [invoke_wrapped_ok_create p cb _ _ _ w args kwargs
              h1 h2 h3 h4] at heq
            simp at heq
  · intro h1
    rw [happ]
    exact invoke_wrapped_connectFail p cb _ _ _ w args kwargs h1
  · intro h1 h2
    rw [happ]
    exact invoke_wrapped_existsFail p cb _ _ _ w args kwargs h1 h2
  · intro h1 h2 h3 h4
    rw [happ]
    exact invoke_wrapped_createFail p cb _ _ _ w args kwargs h1 h2 h3 h4
  · intro h1 h2 h3 h4
    rw [happ]
    exact invoke_wrapped_fetchFail p cb _ _ _ w args kwargs h1 h2 h3 h4

/-- Witness for C7: the handler `show(item, db)` in a world where
connecting to the sample server fails. -/
theorem C7_error_propagation_witness :
    (effective_keyword plugin0 ctx0 ∈ ctx0.callback_spec.args) ∧
    ((∀ e w2 t,
      invoke (plugin0.apply cb0 ctx0) wc [] [] = (Except.error e, w2, t) →
        ResourceOp.callback_call ∉ t) ∧
    (effective_server_name plugin0 ctx0 ∈ wc.connectFailures →
      invoke (plugin0.apply cb0 ctx0) wc [] [] =
        (Except.error (CouchError.connectionError
            (effective_server_name plugin0 ctx0)),
         wc, [ResourceOp.connect (effective_server_name plugin0 ctx0)])) ∧
    (effective_server_name plugin0 ctx0 ∉ wc.connectFailures →
     (effective_server_name plugin0 ctx0, effective_db_name plugin0 ctx0)
        ∈ wc.existsFailures →
      invoke (plugin0.apply cb0 ctx0) wc [] [] =
        (Except.error (CouchError.existsError
            (effective_server_name plugin0 ctx0)
            (effective_db_name plugin0 ctx0)),
         wc, [ResourceOp.connect (effective_server_name plugin0 ctx0),
              ResourceOp.exists_check (effective_server_name plugin0 ctx0)
                (effective_db_name plugin0 ctx0)])) ∧
    (effective_server_name plugin0 ctx0 ∉ wc.connectFailures →
     (effective_server_name plugin0 ctx0, effective_db_name plugin0 ctx0)
        ∉ wc.existsFailures →
     (effective_server_name plugin0 ctx0, effective_db_name plugin0 ctx0)
        ∉ wc.dbs →
     (effective_server_name plugin0 ctx0, effective_db_name plugin0 ctx0)
        ∈ wc.createFailures →
      invoke (plugin0.apply cb0 ctx0) wc [] [] =
        (Except.error (CouchError.createError
            (effective_server_name plugin0 ctx0)
            (effective_db_name plugin0 ctx0)),
         wc, [ResourceOp.connect (effective_server_name plugin0 ctx0),
              ResourceOp.exists_check (effective_server_name plugin0 ctx0)
                (effective_db_name plugin0 ctx0),
              ResourceOp.create (effective_server_name plugin0 ctx0)
                (effective_db_name plugin0 ctx0)])) ∧
    (effective_server_name plugin0 ctx0 ∉ wc.connectFailures →
     (effective_server_name plugin0 ctx0, effective_db_name plugin0 ctx0)
        ∉ wc.existsFailures →
     (effective_server_name plugin0 ctx0, effective_db_name plugin0 ctx0)
        ∈ wc.dbs →
     (effective_server_name plugin0 ctx0, effective_db_name plugin0 ctx0)
        ∈ wc.fetchFailures →
      invoke (plugin0.apply cb0 ctx0) wc [] [] =
        (Except.error (CouchError.resourceNotFound
            (effective_server_name plugin0 ctx0)
            (effective_db_name plugin0 ctx0)),
         wc, [ResourceOp.connect (effective_server_name plugin0 ctx0),
              ResourceOp.exists_check (effective_server_name plugin0 ctx0)
                (effective_db_name plugin0 ctx0),
              ResourceOp.fetch (effective_server_name plugin0 ctx0)
                (effective_db_name plugin0 ctx0)]))) :=
  ⟨by decide, C7_error_propagation plugin0 cb0 ctx0 wc [] [] (by decide)⟩

end BottleCouchDB
